import Mathlib

/-!
# KeyFlow backend: shallow embedding and verification

A shallow embedding of the KeyFlow dealership key-tracking backend
(`src/backend/server.py`).  Documents of the MongoDB collections are modelled
as Lean structures, ISO timestamps as integer seconds, bcrypt hashes as an
opaque-looking wrapper structure, and each HTTP handler as a function from a
database state and request data to `Except Err` of the updated state and
response.  Python's truthiness tests on optional strings and lists, its `or`
on optionals, and `int()` truncation of real quotients are mirrored
explicitly (`pyTruthy`, `Option.or`, `Int.tdiv`).
-/

namespace KeyFlow

/-- An HTTP error as raised by `HTTPException(status_code, detail)`. -/
structure Err where
  code : Nat
  detail : String
deriving DecidableEq, Repr

/-- `DEMO_MAX_KEYS` (server.py line 40). -/
def DEMO_MAX_KEYS : Nat := 4

/-- `DEMO_MAX_USERS` (server.py line 41). -/
def DEMO_MAX_USERS : Nat := 1

/-- `VALID_PDI_STATUSES` (server.py line 89). -/
def VALID_PDI_STATUSES : List String := ["not_pdi_yet", "in_progress", "finished"]

/-- `STANDARD_USER_ROLES` (server.py line 72). -/
def STANDARD_USER_ROLES : List String :=
  ["sales", "service", "delivery", "porter", "lot_tech", "user"]

/-- Python truthiness of an optional string: `None` and `""` are falsy. -/
def pyTruthy : Option String → Bool
  | none => false
  | some s => !(s == "")

/-- Python `str.isdigit`: true iff the string is nonempty and all digits. -/
def isdigit (s : String) : Bool :=
  !(s == "") && s.data.all Char.isDigit

/-- Case-insensitive string equality, as Mongo's anchored regex with the
`i` option compares names: character-wise ASCII lowering. -/
def nameEqCI (a b : String) : Bool :=
  a.data.map Char.toLower == b.data.map Char.toLower

/-- A bcrypt hash, modelled as an injective wrapper of the hashed secret. -/
structure PinHash where
  secret : String
deriving DecidableEq, Repr

/-- `hash_password` (server.py line 407). -/
def hash_password (p : String) : PinHash := ⟨p⟩

/-- `verify_password` (server.py line 410). -/
def verify_password (p : String) (h : PinHash) : Bool := h.secret == p

/-- A document of the `users` collection. -/
structure User where
  id : String
  name : String
  role : String
  dealership_id : Option String
  email : Option String
  password : Option PinHash
  pin : Option PinHash
  admin_pin : Option PinHash
  is_demo : Bool
  created_at : Int
deriving DecidableEq, Repr

/-- The embedded `current_checkout` record of a key document. -/
structure CheckoutInfo where
  user_id : String
  user_name : String
  reason : String
  notes : Option String
  service_bay : Option Int
  checked_out_at : Int
deriving DecidableEq, Repr

/-- An entry of a key's embedded `notes_history` list. -/
structure NoteEntry where
  note : String
  user_name : String
  action : String
  timestamp : Int
deriving DecidableEq, Repr

/-- A document of the `keys` collection.  Fields a freshly created document
lacks in Mongo (`notes_history`, `images`, `attention_status`) are modelled as
always present with the defaults every reader of the document supplies
(`key.get("notes_history", [])`, `key.get("images", [])`, attention `"none"`). -/
structure Key where
  id : String
  stock_number : String
  vehicle_year : Option Int
  vehicle_make : Option String
  vehicle_model : String
  vehicle_vin : Option String
  condition : String
  dealership_id : String
  status : String
  current_checkout : Option CheckoutInfo
  notes_history : List NoteEntry
  images : List String
  attention_status : String
  pdi_status : String
  pdi_last_updated_at : Option Int
  pdi_last_updated_by_user_id : Option String
  pdi_last_updated_by_user_name : Option String
  is_active : Bool
  created_at : Int
deriving DecidableEq, Repr

/-- A document of the `key_history` collection; checkout, return and bay-move
records share the collection, so fields particular to one action are optional. -/
structure HistoryDoc where
  id : String
  key_id : String
  dealership_id : String
  action : String
  user_id : String
  user_name : String
  reason : Option String
  notes : Option String
  service_bay : Option Int
  checked_out_at : Option Int
  returned_at : Option Int
  duration_minutes : Option Int
  original_checkout : Option CheckoutInfo
  old_bay : Option Int
  new_bay : Option Int
deriving DecidableEq, Repr

/-- A document of the `repair_requests` collection. -/
structure RepairDoc where
  id : String
  key_id : String
  stock_number : String
  vehicle_info : String
  dealership_id : String
  reported_by_id : String
  reported_by_name : String
  notes : String
  images : List String
  status : String
  reported_at : Int
  fixed_by_id : Option String
  fixed_by_name : Option String
  fixed_at : Option Int
deriving DecidableEq, Repr

/-- A document of the PDI audit-log collection. -/
structure PDIAuditDoc where
  id : String
  key_id : String
  stock_number : String
  changed_by_user_id : String
  changed_by_user_name : String
  changed_at : Int
  previous_status : String
  new_status : String
  notes : Option String
deriving DecidableEq, Repr

/-- A document of the `time_alerts` collection. -/
structure TimeAlert where
  id : String
  dealership_id : String
  alert_minutes : Int
  is_active : Bool
deriving DecidableEq, Repr

/-- A document of the `invites` collection. -/
structure InviteDoc where
  id : String
  token : String
  dealership_id : String
  dealership_name : String
  role : String
  created_by : String
  expires_at : Int
  is_used : Bool
  used_by : Option String
deriving DecidableEq, Repr

/-- The database state: one list per MongoDB collection touched by the
handlers under verification. -/
structure DB where
  users : List User
  keys : List Key
  key_history : List HistoryDoc
  repair_requests : List RepairDoc
  pdi_audit_logs : List PDIAuditDoc
  time_alerts : List TimeAlert
  invites : List InviteDoc
deriving DecidableEq, Repr

/-- `KeyCreate` request model (server.py line 196). -/
structure KeyCreate where
  stock_number : String
  vehicle_year : Option Int
  vehicle_make : Option String
  vehicle_model : String
  vehicle_vin : Option String
  condition : String
  dealership_id : String
deriving DecidableEq, Repr

/-- `KeyCheckoutRequest` request model (server.py line 262). -/
structure KeyCheckoutRequest where
  reason : String
  notes : Option String
  service_bay : Option Int
  needs_attention : Bool
  images : List String
deriving DecidableEq, Repr

/-- `KeyReturnRequest` request model (server.py line 269). -/
structure KeyReturnRequest where
  notes : Option String
  new_bay : Option Int
deriving DecidableEq, Repr

/-- `PDIStatusUpdate` request model (server.py line 247). -/
structure PDIStatusUpdate where
  status : String
  notes : Option String
deriving DecidableEq, Repr

/-- `UserCreate` request model (server.py line 92), used by both `register`
and `create_user`. -/
structure UserCreate where
  name : String
  pin : String
  role : String
  dealership_id : Option String
  email : Option String
  password : Option String
deriving DecidableEq, Repr

/-- `AcceptInviteRequest` request model (server.py line 340). -/
structure AcceptInviteRequest where
  token : String
  name : String
  email : String
  password : String
deriving DecidableEq, Repr

/-- Python f-string interpolation of an optional integer: `None` renders as
`"None"`. -/
def pyStrInt : Option Int → String
  | none => "None"
  | some n => toString n

/-- Python f-string interpolation of an optional string. -/
def pyStrStr : Option String → String
  | none => "None"
  | some s => s

/-- The `vehicle_info` f-string built for a repair request (server.py line
1334), `strip`ped. -/
def vehicleInfo (key : Key) : String :=
  (pyStrInt key.vehicle_year ++ " " ++ pyStrStr key.vehicle_make ++ " "
    ++ key.vehicle_model).trim

/-- The key document built by `create_key` (server.py lines 1157-1176).
The Mongo document omits `notes_history`, `images` and `attention_status`;
they are modelled with the defaults every reader supplies. -/
def createdKeyDoc (data : KeyCreate) (key_id : String) (now : Int) : Key :=
  { id := key_id
    stock_number := data.stock_number
    vehicle_year := data.vehicle_year
    vehicle_make := data.vehicle_make
    vehicle_model := data.vehicle_model
    vehicle_vin := data.vehicle_vin
    condition := data.condition
    dealership_id := data.dealership_id
    status := "available"
    current_checkout := none
    notes_history := []
    images := []
    attention_status := "none"
    pdi_status := "not_pdi_yet"
    pdi_last_updated_at := none
    pdi_last_updated_by_user_id := none
    pdi_last_updated_by_user_name := none
    is_active := true
    created_at := now }

/-- `db.keys.count_documents({"dealership_id": d, "is_active": True})`
(server.py line 1153). -/
def countActiveKeys (keys : List Key) (d : String) : Nat :=
  (keys.filter (fun k => k.dealership_id == d && k.is_active)).length

/-- `create_key` (server.py lines 1146-1178), including its `require_role`
dependency. -/
def create_key (db : DB) (user : User) (data : KeyCreate) (key_id : String)
    (now : Int) : Except Err (DB × Key) :=
  if user.role ≠ "owner" ∧ user.role ≠ "dealership_admin" then
    .error ⟨403, "Insufficient permissions"⟩
  else if user.role = "dealership_admin" ∧ user.dealership_id ≠ some data.dealership_id then
    .error ⟨403, "Cannot create keys for other dealerships"⟩
  else if user.is_demo ∧ DEMO_MAX_KEYS ≤ countActiveKeys db.keys data.dealership_id then
    .error ⟨403, "Demo account limited to 4 keys. Upgrade to add more!"⟩
  else
    let doc := createdKeyDoc data key_id now
    .ok ({ db with keys := db.keys ++ [doc] }, doc)

/-- The per-key body of `checkout_key` (server.py lines 1291-1346): the
conflict check, the mutated key document, the checkout info, and the repair
request the `needs_attention` flag creates. -/
def checkoutCore (key : Key) (user : User) (data : KeyCheckoutRequest)
    (now : Int) (repair_id : String) :
    Except Err (Key × CheckoutInfo × Option RepairDoc) :=
  if key.status = "checked_out" then
    .error ⟨400, "Key is already checked out"⟩
  else
    let checkout_info : CheckoutInfo :=
      { user_id := user.id
        user_name := user.name
        reason := data.reason
        notes := data.notes
        service_bay := data.service_bay
        checked_out_at := now }
    let notes_history :=
      if pyTruthy data.notes then
        { note := data.notes.getD ""
          user_name := user.name
          action := "checkout"
          timestamp := now } :: key.notes_history
      else key.notes_history
    let key1 := { key with
      status := "checked_out"
      current_checkout := some checkout_info
      notes_history := notes_history }
    if data.needs_attention then
      let key2 := { key1 with
        attention_status := "needs_attention"
        images := if data.images ≠ [] then data.images.take 3 else key1.images }
      let repair : RepairDoc :=
        { id := repair_id
          key_id := key.id
          stock_number := key.stock_number
          vehicle_info := vehicleInfo key
          dealership_id := key.dealership_id
          reported_by_id := user.id
          reported_by_name := user.name
          notes := if pyTruthy data.notes then data.notes.getD "" else "Needs attention"
          images := if data.images ≠ [] then data.images.take 3 else []
          status := "pending"
          reported_at := now
          fixed_by_id := none
          fixed_by_name := none
          fixed_at := none }
      .ok (key2, checkout_info, some repair)
    else
      .ok (key1, checkout_info, none)

/-- `checkout_key` (server.py lines 1285-1361). -/
def checkout_key (db : DB) (key_id : String) (user : User)
    (data : KeyCheckoutRequest) (now : Int) (repair_id hist_id : String) :
    Except Err (DB × Key) :=
  match db.keys.find? (fun k => k.id == key_id) with
  | none => .error ⟨404, "Key not found"⟩
  | some key =>
    match checkoutCore key user data now repair_id with
    | .error e => .error e
    | .ok (key2, checkout_info, repair) =>
      let hist : HistoryDoc :=
        { id := hist_id
          key_id := key_id
          dealership_id := key.dealership_id
          action := "checkout"
          user_id := checkout_info.user_id
          user_name := checkout_info.user_name
          reason := some checkout_info.reason
          notes := checkout_info.notes
          service_bay := checkout_info.service_bay
          checked_out_at := some checkout_info.checked_out_at
          returned_at := none
          duration_minutes := none
          original_checkout := none
          old_bay := none
          new_bay := none }
      .ok ({ db with
              keys := db.keys.map (fun k => if k.id == key_id then key2 else k)
              repair_requests := db.repair_requests ++ repair.toList
              key_history := db.key_history ++ [hist] },
           key2)

/-- The per-key body of `return_key` (server.py lines 1369-1409): the
conflict check, the duration in truncated wall-clock minutes, the history
record snapshotting the prior checkout, and the cleared key.  On a
checked-out key whose `current_checkout` is null the Python would raise
`AttributeError`, surfaced by the framework as an internal server error. -/
def returnCore (key : Key) (user : User) (data : KeyReturnRequest)
    (now : Int) (hist_id : String) : Except Err (Key × HistoryDoc) :=
  if key.status ≠ "checked_out" then
    .error ⟨400, "Key is not checked out"⟩
  else
    match key.current_checkout with
    | none => .error ⟨500, "Internal Server Error"⟩
    | some checkout_info =>
      let duration_minutes := Int.tdiv (now - checkout_info.checked_out_at) 60
      let notes_history :=
        if pyTruthy data.notes then
          { note := data.notes.getD ""
            user_name := user.name
            action := "return"
            timestamp := now } :: key.notes_history
        else key.notes_history
      let hist : HistoryDoc :=
        { id := hist_id
          key_id := key.id
          dealership_id := key.dealership_id
          action := "return"
          user_id := user.id
          user_name := user.name
          reason := none
          notes := data.notes
          service_bay := none
          checked_out_at := none
          returned_at := some now
          duration_minutes := some duration_minutes
          original_checkout := some checkout_info
          old_bay := none
          new_bay := none }
      .ok ({ key with
              status := "available"
              current_checkout := none
              notes_history := notes_history },
           hist)

/-- `return_key` (server.py lines 1363-1412). -/
def return_key (db : DB) (key_id : String) (user : User)
    (data : KeyReturnRequest) (now : Int) (hist_id : String) :
    Except Err (DB × Key) :=
  match db.keys.find? (fun k => k.id == key_id) with
  | none => .error ⟨404, "Key not found"⟩
  | some key =>
    match returnCore key user data now hist_id with
    | .error e => .error e
    | .ok (key1, hist) =>
      .ok ({ db with
              keys := db.keys.map (fun k => if k.id == key_id then key1 else k)
              key_history := db.key_history ++ [hist] },
           key1)

/-- Modelled from the spec: the PDI-status update handler
(`PUT /api/keys/{key_id}/pdi-status`) is not present under `src/` — only its
request model `PDIStatusUpdate` (server.py line 247) and
`VALID_PDI_STATUSES` (line 89) are declared there, and
`src/tests/test_pdi_status.py` exercises it.  Following spec §4.6: any
authenticated caller may update; a status outside the three recognized
values is a bad request; a status equal to the key's current PDI status is a
no-op writing no audit entry; a different valid status updates the key's PDI
fields (status, timestamp, actor id and name) and appends one audit-log
entry capturing previous and new status, actor, note and timestamp. -/
def update_pdi_status (db : DB) (key_id : String) (user : User)
    (data : PDIStatusUpdate) (now : Int) (audit_id : String) :
    Except Err (DB × Key) :=
  match db.keys.find? (fun k => k.id == key_id) with
  | none => .error ⟨404, "Key not found"⟩
  | some key =>
    if data.status ∉ VALID_PDI_STATUSES then
      .error ⟨400, "Invalid PDI status"⟩
    else if data.status = key.pdi_status then
      .ok (db, key)
    else
      let key1 := { key with
        pdi_status := data.status
        pdi_last_updated_at := some now
        pdi_last_updated_by_user_id := some user.id
        pdi_last_updated_by_user_name := some user.name }
      let entry : PDIAuditDoc :=
        { id := audit_id
          key_id := key.id
          stock_number := key.stock_number
          changed_by_user_id := user.id
          changed_by_user_name := user.name
          changed_at := now
          previous_status := key.pdi_status
          new_status := data.status
          notes := data.notes }
      .ok ({ db with
              keys := db.keys.map (fun k => if k.id == key_id then key1 else k)
              pdi_audit_logs := db.pdi_audit_logs ++ [entry] },
           key1)

/-- The database state a request leaves behind: the updated state on success,
the original one when the handler raised.  Each modelled handler raises
before its first write, so the original state is what a failed request
leaves in the store. -/
def runDB (db : DB) (r : Except Err (DB × Key)) : DB :=
  match r with
  | .ok (db', _) => db'
  | .error _ => db

/-- `change_user_pin` (server.py lines 706-729).  The stored hash is
`db_user.get("pin") or db_user.get("admin_pin")`; verification runs only
when that is non-null; the field written depends on the caller's role. -/
def change_user_pin (db : DB) (current_pin new_pin : String) (user : User) :
    Except Err DB :=
  match db.users.find? (fun u => u.id == user.id) with
  | none => .error ⟨404, "User not found"⟩
  | some db_user =>
    let current_pin_hash := db_user.pin.or db_user.admin_pin
    if (match current_pin_hash with
        | some h => !(verify_password current_pin h)
        | none => false) then
      .error ⟨401, "Current PIN is incorrect"⟩
    else if ¬ isdigit new_pin ∨ new_pin.length < 4 ∨ 6 < new_pin.length then
      .error ⟨400, "PIN must be 4-6 digits"⟩
    else
      let upd : User → User :=
        if user.role = "dealership_admin" then
          fun u => { u with admin_pin := some (hash_password new_pin) }
        else
          fun u => { u with pin := some (hash_password new_pin) }
      .ok { db with users := db.users.map (fun u => if u.id == user.id then upd u else u) }

/-- `create_user` (server.py lines 1052-1109), including its `require_role`
dependency.  The duplicate-name check matches any user of the dealership
case-insensitively, with no role filter. -/
def create_user (db : DB) (data : UserCreate) (user : User) (new_id : String)
    (now : Int) : Except Err (DB × User) :=
  if user.role ≠ "owner" ∧ user.role ≠ "dealership_admin" then
    .error ⟨403, "Insufficient permissions"⟩
  else if user.role = "dealership_admin" ∧ data.dealership_id ≠ user.dealership_id then
    .error ⟨403, "Cannot create users for other dealerships"⟩
  else if user.is_demo ∧ DEMO_MAX_USERS ≤
      (db.users.filter (fun u => u.dealership_id == data.dealership_id && !u.is_demo)).length then
    .error ⟨403, "Demo account limited to 1 additional user. Upgrade to add more!"⟩
  else if ¬ isdigit data.pin ∨ data.pin.length < 4 ∨ 6 < data.pin.length then
    .error ⟨400, "PIN must be 4-6 digits"⟩
  else if (db.users.find? (fun u =>
      u.dealership_id == data.dealership_id && nameEqCI u.name data.name)).isSome then
    .error ⟨400, "A user with this name already exists in this dealership"⟩
  else if data.email.isSome ∧ (db.users.find? (fun u => u.email == data.email)).isSome then
    .error ⟨400, "Email already registered"⟩
  else
    let doc : User :=
      { id := new_id
        name := data.name
        role := data.role
        dealership_id := data.dealership_id
        email := data.email
        password := data.password.map hash_password
        pin := some (hash_password data.pin)
        admin_pin := none
        is_demo := false
        created_at := now }
    .ok ({ db with users := db.users ++ [doc] }, doc)

/-- `register` (server.py lines 446-473): only the email is checked for
uniqueness.  `hash_password(None)` would raise when no password is supplied,
surfaced as an internal server error. -/
def register (db : DB) (data : UserCreate) (new_id : String) (now : Int) :
    Except Err (DB × User) :=
  if (db.users.find? (fun u => u.email == data.email)).isSome then
    .error ⟨400, "Email already registered"⟩
  else
    match data.password with
    | none => .error ⟨500, "Internal Server Error"⟩
    | some pw =>
      let doc : User :=
        { id := new_id
          name := data.name
          role := data.role
          dealership_id := data.dealership_id
          email := data.email
          password := some (hash_password pw)
          pin := none
          admin_pin := none
          is_demo := false
          created_at := now }
      .ok ({ db with users := db.users ++ [doc] }, doc)

/-- `accept_invite` (server.py lines 984-1035): validates the token, checks
only the email for uniqueness, inserts the user with the invite's role and
dealership, and marks the token used. -/
def accept_invite (db : DB) (data : AcceptInviteRequest) (new_id : String)
    (now : Int) : Except Err (DB × User) :=
  match db.invites.find? (fun i => i.token == data.token) with
  | none => .error ⟨404, "Invalid invite token"⟩
  | some invite =>
    if invite.is_used then
      .error ⟨400, "This invite has already been used"⟩
    else if invite.expires_at < now then
      .error ⟨400, "This invite has expired"⟩
    else if (db.users.find? (fun u => u.email == some data.email)).isSome then
      .error ⟨400, "Email already registered"⟩
    else
      let doc : User :=
        { id := new_id
          name := data.name
          role := invite.role
          dealership_id := some invite.dealership_id
          email := some data.email
          password := some (hash_password data.password)
          pin := none
          admin_pin := none
          is_demo := false
          created_at := now }
      let db' := { db with
        users := db.users ++ [doc]
        invites := db.invites.map (fun i =>
          if i.token == data.token then { i with is_used := true, used_by := some new_id } else i) }
      .ok (db', doc)

/-- A key of the overdue listing, annotated as in server.py lines 1694-1695. -/
structure OverdueKey where
  key : Key
  overdue_minutes : Int
  elapsed_minutes : Int
deriving DecidableEq, Repr

/-- The time alerts visible to the caller (server.py lines 1670-1674). -/
def scopedAlerts (db : DB) (user : User) : List TimeAlert :=
  if user.role = "owner" then db.time_alerts
  else db.time_alerts.filter (fun a => some a.dealership_id == user.dealership_id)

/-- The threshold a dealership gets from the `alert_map` dict comprehension
(server.py line 1675): active alerts only, later entries overwriting earlier
ones, default 30 when the dealership has no entry (line 1688). -/
def alertMinutesFor (alerts : List TimeAlert) (d : String) : Int :=
  match ((alerts.filter (fun a => a.is_active)).reverse.find?
      (fun a => a.dealership_id == d)) with
  | some a => a.alert_minutes
  | none => 30

/-- The checked-out keys in the caller's scope (server.py lines 1678-1682). -/
def scopedCheckedOutKeys (db : DB) (user : User) : List Key :=
  db.keys.filter (fun k => k.status == "checked_out" &&
    (user.role == "owner" || some k.dealership_id == user.dealership_id))

/-- The per-key body of the overdue loop (server.py lines 1687-1696): a key
with a falsy `current_checkout` is skipped; `elapsed` is the real quotient
elapsed-seconds over 60, compared to the threshold as a real; the two
annotations are `int()` truncations of `elapsed - alert_minutes` and of
`elapsed`, expressed as truncating division of the second counts. -/
def overdueAnnotate (alert_minutes : Int) (now : Int) (key : Key) :
    Option OverdueKey :=
  match key.current_checkout with
  | none => none
  | some c =>
    let elapsedSec := now - c.checked_out_at
    if 60 * alert_minutes < elapsedSec then
      some { key := key
             overdue_minutes := Int.tdiv (elapsedSec - 60 * alert_minutes) 60
             elapsed_minutes := Int.tdiv elapsedSec 60 }
    else none

/-- `get_overdue_keys` (server.py lines 1667-1698). -/
def get_overdue_keys (db : DB) (user : User) (now : Int) : List OverdueKey :=
  (scopedCheckedOutKeys db user).filterMap
    (fun k => overdueAnnotate (alertMinutesFor (scopedAlerts db user) k.dealership_id) now k)

/-- A document of the `daily_activities` collection (numeric fields only). -/
structure DailyActivity where
  worked : Bool
  leads_walk_in : Nat
  leads_phone : Nat
  leads_internet : Nat
  writeups : Nat
  sales : Nat
  appointments_scheduled : Nat
  appointments_shown : Nat
deriving DecidableEq, Repr

/-- A document of the `sales_goals` collection. -/
structure SalesGoal where
  year : Int
  yearly_sales_target : Int
deriving DecidableEq, Repr

/-- The clock values `get_sales_progress` derives from `datetime.now()`:
the current year, `(now - year_start).days` for the queried year, and
`(year_end - now).days`. -/
structure Now where
  year : Int
  days_since_year_start : Nat
  days_until_year_end : Nat
deriving DecidableEq, Repr

/-- `days_elapsed` (server.py lines 1849-1857). -/
def daysElapsed (now : Now) (year : Int) : Int :=
  if now.year = year then (now.days_since_year_start : Int) + 1
  else if year < now.year then 365
  else 0

/-- `days_remaining` (server.py lines 1849-1857). -/
def daysRemaining (now : Now) (year : Int) : Int :=
  if now.year = year then (now.days_until_year_end : Int)
  else if year < now.year then 0
  else 365

/-- Python's banker's rounding of a rational to the nearest integer:
half-to-even. -/
def roundHalfEven (n : ℚ) : ℤ :=
  let f : ℤ := ⌊n⌋
  let frac : ℚ := n - (f : ℚ)
  if 1/2 < frac then f + 1
  else if frac < 1/2 then f
  else if f % 2 = 0 then f else f + 1

/-- Python `round(x, 1)`, idealised over the rationals. -/
def round1 (q : ℚ) : ℚ := (roundHalfEven (q * 10) : ℚ) / 10

/-- Python `round(x, 2)`, idealised over the rationals. -/
def round2 (q : ℚ) : ℚ := (roundHalfEven (q * 100) : ℚ) / 100

/-- The sales target drawn from an optional goal record (server.py line 1860). -/
def salesTargetOf : Option SalesGoal → Int
  | some g => g.yearly_sales_target
  | none => 0

/-- The fields of `SalesProgressResponse` (server.py line 387) computed by
`get_sales_progress`. -/
structure SalesProgress where
  goal : Option SalesGoal
  total_leads : Nat
  total_writeups : Nat
  total_sales : Nat
  total_appointments : Nat
  days_worked : Nat
  days_off : Nat
  days_elapsed : Int
  days_remaining : Int
  sales_needed_remaining : Int
  weekly_sales_needed : ℚ
  monthly_sales_needed : ℚ
  current_pace_per_day : ℚ
  projected_annual_sales : Int
  goal_achievement_probability : ℚ
  on_track : Bool
deriving DecidableEq, Repr

/-- The computation of `get_sales_progress` (server.py lines 1811-1905) after
its database reads: totals over the year's activity rows, elapsed and
remaining days, pace, projection, the probability heuristic and the on-track
flag.  Real arithmetic is carried out in `ℚ`; `int(...)` is applied only to
the nonnegative projection, where truncation is floor. -/
def get_sales_progress (goal : Option SalesGoal)
    (activities : List DailyActivity) (now : Now) (year : Int) : SalesProgress :=
  let total_sales : Nat := (activities.map (fun a => a.sales)).sum
  let days_worked : Nat := (activities.filter (fun a => a.worked)).length
  let days_elapsed := daysElapsed now year
  let days_remaining := daysRemaining now year
  let sales_target : Int := salesTargetOf goal
  let sales_needed_remaining : Int := max 0 (sales_target - (total_sales : Int))
  let weeks_remaining : ℚ := max 1 ((days_remaining : ℚ) / 7)
  let months_remaining : ℚ := max 1 ((days_remaining : ℚ) / 30)
  let weekly_sales_needed : ℚ :=
    if 0 < weeks_remaining then (sales_needed_remaining : ℚ) / weeks_remaining else 0
  let monthly_sales_needed : ℚ :=
    if 0 < months_remaining then (sales_needed_remaining : ℚ) / months_remaining else 0
  let current_pace_per_day : ℚ :=
    if 0 < days_worked then (total_sales : ℚ) / (days_worked : ℚ) else 0
  let projected_annual : Int :=
    if 0 < days_worked then ⌊current_pace_per_day * 365⌋ else 0
  let probability : ℚ :=
    if 0 < sales_target ∧ 0 < days_elapsed then
      let expected_by_now : ℚ := ((sales_target : ℚ) / 365) * (days_elapsed : ℚ)
      if 0 < expected_by_now then
        min 100 (max 0 (((total_sales : ℚ) / expected_by_now) * 100))
      else 0
    else if 0 < sales_target then 0 else 100
  let on_track : Bool :=
    if 0 < sales_target then
      decide (((sales_target : ℚ) / 365) * (days_elapsed : ℚ) ≤ (total_sales : ℚ))
    else true
  { goal := goal
    total_leads := (activities.map (fun a =>
      a.leads_walk_in + a.leads_phone + a.leads_internet)).sum
    total_writeups := (activities.map (fun a => a.writeups)).sum
    total_sales := total_sales
    total_appointments := (activities.map (fun a => a.appointments_scheduled)).sum
    days_worked := days_worked
    days_off := (activities.filter (fun a => !a.worked)).length
    days_elapsed := days_elapsed
    days_remaining := days_remaining
    sales_needed_remaining := sales_needed_remaining
    weekly_sales_needed := round1 weekly_sales_needed
    monthly_sales_needed := round1 monthly_sales_needed
    current_pace_per_day := round2 current_pace_per_day
    projected_annual_sales := projected_annual
    goal_achievement_probability := round1 probability
    on_track := on_track }

/-- A checkout or return request aimed at one key, for reasoning about
sequences of key operations. -/
inductive KeyOp where
  | checkout (user : User) (data : KeyCheckoutRequest) (now : Int) (repair_id : String)
  | ret (user : User) (data : KeyReturnRequest) (now : Int) (hist_id : String)
deriving Repr

/-- The effect of one request on a single key document: the updated document
when the handler succeeds, the unchanged document when it raises. -/
def stepKey (key : Key) (op : KeyOp) : Key :=
  match op with
  | .checkout u data now rid =>
    match checkoutCore key u data now rid with
    | .ok (k, _, _) => k
    | .error _ => key
  | .ret u data now hid =>
    match returnCore key u data now hid with
    | .ok (k, _) => k
    | .error _ => key

/-- The key-lifecycle invariant: `current_checkout` is non-null iff
`status = "checked_out"`. -/
def checkoutInv (k : Key) : Prop :=
  k.current_checkout ≠ none ↔ k.status = "checked_out"

instance (k : Key) : Decidable (checkoutInv k) := by
  unfold checkoutInv; infer_instance

/-- A case-insensitive staff-name clash between two user documents of the
same dealership. -/
def staffClash (u v : User) : Prop :=
  u.role ∈ STANDARD_USER_ROLES ∧ v.role ∈ STANDARD_USER_ROLES ∧
  u.dealership_id = v.dealership_id ∧ nameEqCI u.name v.name = true

instance (u v : User) : Decidable (staffClash u v) := by
  unfold staffClash; infer_instance

/-- The spec invariant: the `(dealership_id, name)` pair is case-insensitively
unique among staff-role users. -/
def staffUnique (users : List User) : Prop :=
  users.Pairwise (fun u v => ¬ staffClash u v)

instance (users : List User) : Decidable (staffUnique users) := by
  unfold staffUnique; infer_instance

/-- The database state left by a handler returning the state and the created
user, keeping the original state on error. -/
def runUserDB (db : DB) (r : Except Err (DB × User)) : DB :=
  match r with
  | .ok (db', _) => db'
  | .error _ => db

/-- Fixture: an administrator of dealership `d1`. -/
def adminUser : User :=
  { id := "u1", name := "Alice", role := "dealership_admin",
    dealership_id := some "d1", email := some "alice@x", password := none,
    pin := none, admin_pin := some (hash_password "1234"), is_demo := false,
    created_at := 0 }

/-- Fixture: a demo-tenant administrator of dealership `d1`. -/
def demoAdmin : User :=
  { adminUser with id := "u9", name := "Demo Admin", is_demo := true }

/-- Fixture: a staff user of `d1` without any stored PIN hash. -/
def noPinUser : User :=
  { id := "u2", name := "Bob", role := "sales", dealership_id := some "d1",
    email := none, password := none, pin := none, admin_pin := none,
    is_demo := false, created_at := 0 }

/-- Fixture: a key-creation request for dealership `d1`. -/
def sampleKeyCreate : KeyCreate :=
  { stock_number := "S1", vehicle_year := some 2024, vehicle_make := some "Mk",
    vehicle_model := "Md", vehicle_vin := none, condition := "new",
    dealership_id := "d1" }

/-- Fixture: an available key of dealership `d1`. -/
def availableKey : Key := createdKeyDoc sampleKeyCreate "k1" 0

/-- Fixture: a key of `d1` checked out at time 0. -/
def checkedOutKey : Key :=
  { availableKey with
    id := "k2"
    status := "checked_out"
    current_checkout := some
      { user_id := "u2", user_name := "Bob", reason := "test_drive",
        notes := none, service_bay := none, checked_out_at := 0 } }

/-- Fixture: a checkout request without the attention flag. -/
def plainCheckout : KeyCheckoutRequest :=
  { reason := "test_drive", notes := some "out for a spin", service_bay := none,
    needs_attention := false, images := [] }

/-- Fixture: a return request without a note. -/
def plainReturn : KeyReturnRequest := { notes := none, new_bay := none }

/-- Fixture: a database holding the two sample keys, the sample users and an
active 10-minute alert for `d1`. -/
def sampleDB : DB :=
  { users := [adminUser, noPinUser]
    keys := [availableKey, checkedOutKey]
    key_history := []
    repair_requests := []
    pdi_audit_logs := []
    time_alerts := [{ id := "a1", dealership_id := "d1", alert_minutes := 10,
                      is_active := true }]
    invites := [] }

/-- Fixture: three active keys of dealership `d1`, for the demo cap. -/
def demoDB3 : DB :=
  { users := [demoAdmin]
    keys := [createdKeyDoc sampleKeyCreate "k1" 0,
             createdKeyDoc sampleKeyCreate "k2" 0,
             createdKeyDoc sampleKeyCreate "k3" 0]
    key_history := []
    repair_requests := []
    pdi_audit_logs := []
    time_alerts := []
    invites := [] }

/-- Fixture: the state after the demo tenant's 4th key creation. -/
def demoDB4 : DB :=
  runDB demoDB3 (create_key demoDB3 demoAdmin sampleKeyCreate "k4" 0)

/-- Fixture: a registration that duplicates `noPinUser`'s name in `d1` up to
case, with a fresh email. -/
def dupUserCreate : UserCreate :=
  { name := "BOB", pin := "0000", role := "sales", dealership_id := some "d1",
    email := some "bob2@x", password := some "pw" }

/-- Fixture: a database holding only the staff user `noPinUser`. -/
def dupNameDB : DB :=
  { users := [noPinUser]
    keys := [], key_history := [], repair_requests := [], pdi_audit_logs := []
    time_alerts := [], invites := [] }

/-- Fixture: a staff-creation request with a fresh name for `d1`. -/
def newStaffCreate : UserCreate :=
  { name := "Carol", pin := "4321", role := "service",
    dealership_id := some "d1", email := none, password := none }

/-- Fixture: the state after `adminUser` creates `newStaffCreate` over
`dupNameDB`. -/
def createdStaffDB : DB :=
  runUserDB dupNameDB (create_user dupNameDB newStaffCreate adminUser "u5" 0)

/-! ## Helper lemmas -/

/-- A successful checkout leaves the key checked out with the embedded
checkout record. -/
theorem checkoutCore_ok_fields {key : Key} {user : User} {data : KeyCheckoutRequest}
    {now : Int} {rid : String} {k : Key} {ci : CheckoutInfo} {r : Option RepairDoc}
    (h : checkoutCore key user data now rid = .ok (k, ci, r)) :
    k.status = "checked_out" ∧ k.current_checkout = some ci := by
  by_cases hs : key.status = "checked_out"
  · simp [checkoutCore, hs] at h
  · by_cases hn : data.needs_attention
    · simp [checkoutCore, hs, hn] at h
      obtain ⟨hk, hci, -⟩ := h
      subst hk; subst hci
      exact ⟨rfl, rfl⟩
    · simp [checkoutCore, hs, hn] at h
      obtain ⟨hk, hci, -⟩ := h
      subst hk; subst hci
      exact ⟨rfl, rfl⟩

/-- A successful return leaves the key available with no embedded checkout. -/
theorem returnCore_ok_fields {key : Key} {user : User} {data : KeyReturnRequest}
    {now : Int} {hid : String} {k : Key} {h : HistoryDoc}
    (hok : returnCore key user data now hid = .ok (k, h)) :
    k.status = "available" ∧ k.current_checkout = none := by
  by_cases hs : key.status = "checked_out"
  · match hco : key.current_checkout with
    | none => simp [returnCore, hs, hco] at hok
    | some ci =>
      simp [returnCore, hs, hco] at hok
      obtain ⟨hk, -⟩ := hok
      subst hk
      exact ⟨rfl, rfl⟩
  · simp [returnCore, hs] at hok

/-- One checkout or return request preserves the lifecycle invariant. -/
theorem stepKey_preserves_inv (key : Key) (op : KeyOp) (hk : checkoutInv key) :
    checkoutInv (stepKey key op) := by
  cases op with
  | checkout u data now rid =>
    cases hok : checkoutCore key u data now rid with
    | error e => simpa [stepKey, hok] using hk
    | ok x =>
      obtain ⟨k, ci, r⟩ := x
      have := checkoutCore_ok_fields hok
      simp [stepKey, hok, checkoutInv, this.1, this.2]
  | ret u data now hid =>
    cases hok : returnCore key u data now hid with
    | error e => simpa [stepKey, hok] using hk
    | ok x =>
      obtain ⟨k, h⟩ := x
      have := returnCore_ok_fields hok
      simp [stepKey, hok, checkoutInv, this.1, this.2]

/-- Any sequence of checkout and return requests preserves the lifecycle
invariant. -/
theorem foldl_stepKey_inv (ops : List KeyOp) (key : Key) (hk : checkoutInv key) :
    checkoutInv (ops.foldl stepKey key) := by
  induction ops generalizing key with
  | nil => simpa using hk
  | cons op ops ih => exact ih _ (stepKey_preserves_inv key op hk)

/-- Truncating division against a shifted threshold: for a nonnegative
threshold `a` of exceeded value `s`, the overdue minutes computed from the
second counts equal the elapsed minutes minus the threshold. -/
theorem tdiv_sub_alert (s a : Int) (ha : 0 ≤ a) (hlt : 60 * a < s) :
    Int.tdiv (s - 60 * a) 60 = Int.tdiv s 60 - a := by
  have h1 : (0:Int) ≤ s - 60 * a := by omega
  have h2 : (0:Int) ≤ s := by omega
  rw [Int.tdiv_eq_ediv h1 (by norm_num), Int.tdiv_eq_ediv h2 (by norm_num)]
  omega

/-- Alerts in the caller's scope come from the `time_alerts` collection. -/
theorem mem_scopedAlerts {db : DB} {user : User} {a : TimeAlert}
    (h : a ∈ scopedAlerts db user) : a ∈ db.time_alerts := by
  unfold scopedAlerts at h
  split at h
  · exact h
  · exact (List.mem_filter.mp h).1

/-- A checked-out key of the caller's dealership (or any key, for the owner)
is in the scope of the overdue query. -/
theorem mem_scopedCheckedOutKeys {db : DB} {user : User} {key : Key}
    (hmem : key ∈ db.keys) (hstatus : key.status = "checked_out")
    (hscope : user.role = "owner" ∨ user.dealership_id = some key.dealership_id) :
    key ∈ scopedCheckedOutKeys db user := by
  refine List.mem_filter.mpr ⟨hmem, ?_⟩
  rcases hscope with h | h <;> simp [hstatus, h]

/-- Updating the elements of a list selected by a predicate the update
preserves moves `find?` across the update. -/
theorem find?_map_update {α : Type} (p : α → Bool) (g : α → α)
    (hg : ∀ a, p (g a) = p a) :
    ∀ (l : List α) (a : α), l.find? p = some a →
      (l.map (fun x => if p x then g x else x)).find? p = some (g a) := by
  intro l
  induction l with
  | nil => intro a h; simp at h
  | cons x xs ih =>
    intro a h
    by_cases hx : p x = true
    · rw [List.find?_cons_of_pos _ hx] at h
      cases h
      simp only [List.map_cons, if_pos hx]
      exact List.find?_cons_of_pos _ (by rw [hg]; exact hx)
    · rw [List.find?_cons_of_neg _ (by simpa using hx)] at h
      simp only [List.map_cons, if_neg hx]
      rw [List.find?_cons_of_neg _ (by simpa using hx)]
      exact ih a h

/-! ## Claim theorems -/

/-- C1: for every key document and every sequence of key operations, the
key's `current_checkout` is non-null iff its status is `checked_out`:
`create_key` builds the document available with a null checkout,
`checkout_key` sets `checked_out` with a non-null checkout record,
`return_key` sets `available` with a null checkout, and every sequence of
checkout and return requests started from a created document preserves the
invariant. -/
theorem key_lifecycle_checkout_invariant :
    (∀ (data : KeyCreate) (key_id : String) (now : Int),
      (createdKeyDoc data key_id now).status = "available" ∧
      (createdKeyDoc data key_id now).current_checkout = none) ∧
    (∀ (key : Key) (user : User) (data : KeyCheckoutRequest) (now : Int)
        (rid : String) (k : Key) (ci : CheckoutInfo) (r : Option RepairDoc),
      checkoutCore key user data now rid = .ok (k, ci, r) →
      k.status = "checked_out" ∧ k.current_checkout = some ci) ∧
    (∀ (key : Key) (user : User) (data : KeyReturnRequest) (now : Int)
        (hid : String) (k : Key) (h : HistoryDoc),
      returnCore key user data now hid = .ok (k, h) →
      k.status = "available" ∧ k.current_checkout = none) ∧
    (∀ (data : KeyCreate) (key_id : String) (now : Int) (ops : List KeyOp),
      checkoutInv (ops.foldl stepKey (createdKeyDoc data key_id now))) := by
  refine ⟨?_, ?_, ?_, ?_⟩
  · intro data key_id now; exact ⟨rfl, rfl⟩
  · intro key user data now rid k ci r h; exact checkoutCore_ok_fields h
  · intro key user data now hid k h hok; exact returnCore_ok_fields hok
  · intro data key_id now ops
    exact foldl_stepKey_inv ops _ (by simp [checkoutInv, createdKeyDoc])

/-- Witness for C1: a concrete checkout-then-return cycle keeps the
invariant, and a concrete checkout succeeds with a non-null record. -/
theorem key_lifecycle_checkout_invariant_witness :
    checkoutInv (([KeyOp.checkout noPinUser plainCheckout 0 "r1",
       KeyOp.ret noPinUser plainReturn 60 "h1"] : List KeyOp).foldl stepKey
      (createdKeyDoc sampleKeyCreate "k1" 0)) ∧
    ∃ k ci r, checkoutCore availableKey noPinUser plainCheckout 0 "r1" = .ok (k, ci, r) ∧
      k.status = "checked_out" ∧ k.current_checkout = some ci := by
  constructor
  · exact key_lifecycle_checkout_invariant.2.2.2 sampleKeyCreate "k1" 0 _
  · refine ⟨_, _, _, rfl, ?_⟩
    exact key_lifecycle_checkout_invariant.2.1 availableKey noPinUser plainCheckout
      0 "r1" _ _ _ rfl

/-- C2: a PDI-status update to the key's current status writes no audit
entry; an update to a different recognized status appends exactly one entry
whose `previous_status` is the key's prior status; an unrecognized status is
rejected with a 400.  The handler is modelled from the spec because it is
absent from `src/` (see `update_pdi_status`). -/
theorem pdi_status_update_audit (db : DB) (key_id : String) (user : User)
    (data : PDIStatusUpdate) (now : Int) (audit_id : String) (key : Key)
    (hfind : db.keys.find? (fun k => k.id == key_id) = some key) :
    (data.status = key.pdi_status →
      (runDB db (update_pdi_status db key_id user data now audit_id)).pdi_audit_logs
        = db.pdi_audit_logs) ∧
    (data.status ∈ VALID_PDI_STATUSES → ¬ data.status = key.pdi_status →
      ∃ db' k' e, update_pdi_status db key_id user data now audit_id = .ok (db', k') ∧
        db'.pdi_audit_logs = db.pdi_audit_logs ++ [e] ∧
        e.previous_status = key.pdi_status ∧ e.new_status = data.status ∧
        k'.pdi_status = data.status) ∧
    (data.status ∉ VALID_PDI_STATUSES →
      update_pdi_status db key_id user data now audit_id
        = .error ⟨400, "Invalid PDI status"⟩) := by
  refine ⟨?_, ?_, ?_⟩
  · intro heq
    by_cases hv : key.pdi_status ∈ VALID_PDI_STATUSES <;>
      simp [update_pdi_status, hfind, runDB, hv, heq]
  · intro hv hne
    cases hres : update_pdi_status db key_id user data now audit_id with
    | error e =>
      have h2 := hres
      simp [update_pdi_status, hfind, hv, hne] at h2
    | ok p =>
      obtain ⟨db', k'⟩ := p
      have h2 := hres
      simp [update_pdi_status, hfind, hv, hne] at h2
      obtain ⟨e1, e2⟩ := h2
      subst e1; subst e2
      exact ⟨_, _, _, rfl, rfl, rfl, rfl, rfl⟩
  · intro hv
    simp [update_pdi_status, hfind, hv]

/-- Witness for C2: on the sample database, a same-status update leaves the
audit log unchanged, a change to `in_progress` appends one entry recording
the prior status, and a bogus status is rejected. -/
theorem pdi_status_update_audit_witness :
    (runDB sampleDB (update_pdi_status sampleDB "k1" adminUser
        ⟨"not_pdi_yet", none⟩ 5 "pa1")).pdi_audit_logs = sampleDB.pdi_audit_logs ∧
    (∃ db' k' e, update_pdi_status sampleDB "k1" adminUser
        ⟨"in_progress", none⟩ 5 "pa1" = .ok (db', k') ∧
      db'.pdi_audit_logs = sampleDB.pdi_audit_logs ++ [e] ∧
      e.previous_status = availableKey.pdi_status ∧ e.new_status = "in_progress" ∧
      k'.pdi_status = "in_progress") ∧
    update_pdi_status sampleDB "k1" adminUser ⟨"bogus", none⟩ 5 "pa1"
      = .error ⟨400, "Invalid PDI status"⟩ := by
  refine ⟨?_, ?_, ?_⟩
  · exact (pdi_status_update_audit sampleDB "k1" adminUser ⟨"not_pdi_yet", none⟩
      5 "pa1" availableKey rfl).1 rfl
  · exact (pdi_status_update_audit sampleDB "k1" adminUser ⟨"in_progress", none⟩
      5 "pa1" availableKey rfl).2.1 (by decide) (by decide)
  · exact (pdi_status_update_audit sampleDB "k1" adminUser ⟨"bogus", none⟩
      5 "pa1" availableKey rfl).2.2 (by decide)

/-- C3: a checkout request on an already-checked-out key is rejected with the
handler's conflict error (HTTP 400, "Key is already checked out") and leaves
the database — the key document, the repair requests and the history — as it
was. -/
theorem checkout_conflict_rejected (db : DB) (key_id : String) (user : User)
    (data : KeyCheckoutRequest) (now : Int) (rid hid : String) (key : Key)
    (hfind : db.keys.find? (fun k => k.id == key_id) = some key)
    (hs : key.status = "checked_out") :
    checkout_key db key_id user data now rid hid
      = .error ⟨400, "Key is already checked out"⟩ ∧
    runDB db (checkout_key db key_id user data now rid hid) = db := by
  have herr : checkout_key db key_id user data now rid hid
      = .error ⟨400, "Key is already checked out"⟩ := by
    simp [checkout_key, hfind, checkoutCore, hs]
  exact ⟨herr, by simp [runDB, herr]⟩

/-- Witness for C3: checking out the sample checked-out key fails with the
conflict error and leaves the sample database unchanged. -/
theorem checkout_conflict_rejected_witness :
    checkout_key sampleDB "k2" noPinUser plainCheckout 120 "r1" "h1"
      = .error ⟨400, "Key is already checked out"⟩ ∧
    runDB sampleDB (checkout_key sampleDB "k2" noPinUser plainCheckout 120 "r1" "h1")
      = sampleDB :=
  checkout_conflict_rejected sampleDB "k2" noPinUser plainCheckout 120 "r1" "h1"
    checkedOutKey rfl rfl

/-- C4: returning a checked-out key computes the duration as the truncated
wall-clock minutes between the stored checkout time and now, appends one
history record capturing the duration and a snapshot of the prior checkout,
clears `current_checkout`, sets the status to available, and prepends a
note-history entry exactly when a (truthy) note was supplied; a return on a
key that is not checked out fails with the conflict error. -/
theorem return_key_effects (db : DB) (key_id : String) (user : User)
    (data : KeyReturnRequest) (now : Int) (hid : String) (key : Key)
    (hfind : db.keys.find? (fun k => k.id == key_id) = some key) :
    (¬ key.status = "checked_out" →
      return_key db key_id user data now hid
        = .error ⟨400, "Key is not checked out"⟩) ∧
    (∀ c, key.status = "checked_out" → key.current_checkout = some c →
      ∃ db' k' h, return_key db key_id user data now hid = .ok (db', k') ∧
        db'.key_history = db.key_history ++ [h] ∧
        h.duration_minutes = some (Int.tdiv (now - c.checked_out_at) 60) ∧
        h.original_checkout = some c ∧
        k'.status = "available" ∧ k'.current_checkout = none ∧
        (pyTruthy data.notes = true → ∃ e, k'.notes_history = e :: key.notes_history) ∧
        (pyTruthy data.notes = false → k'.notes_history = key.notes_history)) := by
  constructor
  · intro hs
    simp [return_key, hfind, returnCore, hs]
  · intro c hs hco
    cases hres : return_key db key_id user data now hid with
    | error e =>
      have h2 := hres
      simp [return_key, hfind, returnCore, hs, hco] at h2
    | ok p =>
      obtain ⟨db', k'⟩ := p
      have h2 := hres
      simp [return_key, hfind, returnCore, hs, hco] at h2
      obtain ⟨e1, e2⟩ := h2
      subst e1; subst e2
      refine ⟨_, _, _, rfl, rfl, rfl, rfl, rfl, rfl, ?_, ?_⟩
      · intro ht
        exact ⟨{ note := data.notes.getD "", user_name := user.name,
                 action := "return", timestamp := now }, by simp [ht]⟩
      · intro ht; simp [ht]

/-- Witness for C4: returning the sample checked-out key at second 3725
records 62 minutes, snapshots the prior checkout, and clears the key. -/
theorem return_key_effects_witness :
    ∃ db' k' h, return_key sampleDB "k2" noPinUser plainReturn 3725 "h2" = .ok (db', k') ∧
      db'.key_history = sampleDB.key_history ++ [h] ∧
      h.duration_minutes = some (Int.tdiv (3725 - 0) 60) ∧
      h.original_checkout = some
        { user_id := "u2", user_name := "Bob", reason := "test_drive",
          notes := none, service_bay := none, checked_out_at := 0 } ∧
      k'.status = "available" ∧ k'.current_checkout = none ∧
      (pyTruthy plainReturn.notes = true →
        ∃ e, k'.notes_history = e :: checkedOutKey.notes_history) ∧
      (pyTruthy plainReturn.notes = false →
        k'.notes_history = checkedOutKey.notes_history) :=
  (return_key_effects sampleDB "k2" noPinUser plainReturn 3725 "h2"
      checkedOutKey rfl).2
    { user_id := "u2", user_name := "Bob", reason := "test_drive",
      notes := none, service_bay := none, checked_out_at := 0 } rfl rfl

/-- C5: a checked-out key in scope appears in the overdue listing exactly
when its elapsed time since checkout exceeds the dealership's threshold
(elapsed seconds above 60 times the threshold minutes), annotated with
`elapsed_minutes` (truncated) and `overdue_minutes` equal to the elapsed
minutes minus the threshold; with no active alert configured for the
dealership the threshold is the default 30. -/
theorem overdue_listing_correct (db : DB) (user : User) (now : Int) (key : Key)
    (c : CheckoutInfo)
    (hmem : key ∈ db.keys)
    (hstatus : key.status = "checked_out")
    (hscope : user.role = "owner" ∨ user.dealership_id = some key.dealership_id)
    (hco : key.current_checkout = some c)
    (halert : 0 ≤ alertMinutesFor (scopedAlerts db user) key.dealership_id) :
    ((∃ e ∈ get_overdue_keys db user now, e.key = key) ↔
      60 * alertMinutesFor (scopedAlerts db user) key.dealership_id
        < now - c.checked_out_at) ∧
    (∀ e ∈ get_overdue_keys db user now, e.key = key →
      e.elapsed_minutes = Int.tdiv (now - c.checked_out_at) 60 ∧
      e.overdue_minutes
        = e.elapsed_minutes
          - alertMinutesFor (scopedAlerts db user) key.dealership_id) ∧
    ((∀ a ∈ db.time_alerts, ¬(a.is_active = true ∧ a.dealership_id = key.dealership_id)) →
      alertMinutesFor (scopedAlerts db user) key.dealership_id = 30) := by
  have hinscope := mem_scopedCheckedOutKeys hmem hstatus hscope
  refine ⟨⟨?_, ?_⟩, ?_, ?_⟩
  · rintro ⟨e, he, hekey⟩
    obtain ⟨a, ha, hann⟩ := List.mem_filterMap.mp he
    cases hcoa : a.current_checkout with
    | none => simp [overdueAnnotate, hcoa] at hann
    | some ca =>
      by_cases hlt : 60 * alertMinutesFor (scopedAlerts db user) a.dealership_id
          < now - ca.checked_out_at
      · simp [overdueAnnotate, hcoa, hlt] at hann
        have hak : a = key := by rw [← hekey, ← hann]
        subst hak
        rw [hcoa] at hco
        cases hco
        exact hlt
      · simp [overdueAnnotate, hcoa, hlt] at hann
  · intro hlt
    refine ⟨{ key := key
              overdue_minutes := Int.tdiv ((now - c.checked_out_at)
                - 60 * alertMinutesFor (scopedAlerts db user) key.dealership_id) 60
              elapsed_minutes := Int.tdiv (now - c.checked_out_at) 60 }, ?_, rfl⟩
    refine List.mem_filterMap.mpr ⟨key, hinscope, ?_⟩
    simp [overdueAnnotate, hco, hlt]
  · intro e he hekey
    obtain ⟨a, ha, hann⟩ := List.mem_filterMap.mp he
    cases hcoa : a.current_checkout with
    | none => simp [overdueAnnotate, hcoa] at hann
    | some ca =>
      by_cases hlt : 60 * alertMinutesFor (scopedAlerts db user) a.dealership_id
          < now - ca.checked_out_at
      · simp [overdueAnnotate, hcoa, hlt] at hann
        have hak : a = key := by rw [← hekey, ← hann]
        subst hak
        rw [hcoa] at hco
        cases hco
        constructor
        · rw [← hann]
        · rw [← hann]
          simp only
          exact tdiv_sub_alert _ _ halert hlt
      · simp [overdueAnnotate, hcoa, hlt] at hann
  · intro hnone
    unfold alertMinutesFor
    have hfind : ((scopedAlerts db user).filter (fun a => a.is_active)).reverse.find?
        (fun a => a.dealership_id == key.dealership_id) = none := by
      refine List.find?_eq_none.mpr ?_
      intro x hx
      have hx2 := List.mem_reverse.mp hx
      obtain ⟨hxs, hxa⟩ := List.mem_filter.mp hx2
      have hxt := mem_scopedAlerts hxs
      have := hnone x hxt
      simp only [beq_iff_eq]
      intro hxd
      exact this ⟨by simpa using hxa, hxd⟩
    rw [hfind]

/-- Witness for C5: with a 10-minute alert for the dealership, the sample key
checked out at second 0 is listed as overdue at second 700. -/
theorem overdue_listing_correct_witness :
    ∃ e ∈ get_overdue_keys sampleDB noPinUser 700, e.key = checkedOutKey := by
  have h := overdue_listing_correct sampleDB noPinUser 700 checkedOutKey
    { user_id := "u2", user_name := "Bob", reason := "test_drive",
      notes := none, service_bay := none, checked_out_at := 0 }
    (by decide) rfl (Or.inr rfl) rfl (by decide)
  exact h.1.mpr (by decide)

/-- C6: for a demo-tenant administrator, key creation succeeds while the
dealership's active-key count is below the cap of 4, incrementing the count,
and is rejected with a 403 once the count has reached the cap. -/
theorem demo_key_cap (db : DB) (user : User) (data : KeyCreate) (key_id : String)
    (now : Int) (hdemo : user.is_demo = true)
    (hrole : user.role = "dealership_admin")
    (hdeal : user.dealership_id = some data.dealership_id) :
    (countActiveKeys db.keys data.dealership_id < DEMO_MAX_KEYS →
      ∃ db' k, create_key db user data key_id now = .ok (db', k) ∧
        countActiveKeys db'.keys data.dealership_id
          = countActiveKeys db.keys data.dealership_id + 1) ∧
    (DEMO_MAX_KEYS ≤ countActiveKeys db.keys data.dealership_id →
      create_key db user data key_id now
        = .error ⟨403, "Demo account limited to 4 keys. Upgrade to add more!"⟩) := by
  constructor
  · intro hlt
    refine ⟨{ db with keys := db.keys ++ [createdKeyDoc data key_id now] },
      createdKeyDoc data key_id now, ?_, ?_⟩
    · simp [create_key, hrole, hdeal, hdemo, Nat.not_le.mpr hlt]
    · simp [countActiveKeys, createdKeyDoc, List.filter_append]
  · intro hge
    simp [create_key, hrole, hdeal, hdemo, hge]

/-- Witness for C6: with 3 active demo keys the 4th creation succeeds and the
5th is rejected with the 403 cap error. -/
theorem demo_key_cap_witness :
    (∃ db' k, create_key demoDB3 demoAdmin sampleKeyCreate "k4" 0 = .ok (db', k) ∧
      countActiveKeys db'.keys sampleKeyCreate.dealership_id
        = countActiveKeys demoDB3.keys sampleKeyCreate.dealership_id + 1) ∧
    create_key demoDB4 demoAdmin sampleKeyCreate "k5" 0
      = .error ⟨403, "Demo account limited to 4 keys. Upgrade to add more!"⟩ := by
  constructor
  · exact (demo_key_cap demoDB3 demoAdmin sampleKeyCreate "k4" 0 rfl rfl rfl).1 (by decide)
  · exact (demo_key_cap demoDB4 demoAdmin sampleKeyCreate "k5" 0 rfl rfl rfl).2 (by decide)

/-- C7: with a zero sales target (including no goal record) the progress is
on-track with probability 100 regardless of the activity rows; with a
positive target and zero elapsed days the probability is 0. -/
theorem sales_progress_zero_goal (goal : Option SalesGoal)
    (activities : List DailyActivity) (now : Now) (year : Int) :
    (salesTargetOf goal = 0 →
      (get_sales_progress goal activities now year).on_track = true ∧
      (get_sales_progress goal activities now year).goal_achievement_probability = 100) ∧
    (0 < salesTargetOf goal → daysElapsed now year = 0 →
      (get_sales_progress goal activities now year).goal_achievement_probability = 0) := by
  constructor
  · intro h0
    constructor
    · simp [get_sales_progress, h0]
    · simp [get_sales_progress, h0]
      norm_num [round1, roundHalfEven]
  · intro hpos helapsed
    simp [get_sales_progress, helapsed, hpos]
    norm_num [round1, roundHalfEven]

/-- Witness for C7: no goal record gives on-track with probability 100; a
positive goal queried for a future year has probability 0. -/
theorem sales_progress_zero_goal_witness :
    ((get_sales_progress none [] ⟨2025, 100, 200⟩ 2025).on_track = true ∧
      (get_sales_progress none [] ⟨2025, 100, 200⟩ 2025).goal_achievement_probability
        = 100) ∧
    (get_sales_progress (some ⟨2024, 50⟩) [] ⟨2023, 2, 3⟩ 2024).goal_achievement_probability
      = 0 := by
  constructor
  · exact (sales_progress_zero_goal none [] ⟨2025, 100, 200⟩ 2025).1 rfl
  · exact (sales_progress_zero_goal (some ⟨2024, 50⟩) [] ⟨2023, 2, 3⟩ 2024).2
      (by decide) (by decide)

/-- C8 counterexample: `register` checks only the email for uniqueness, so a
second registration with a fresh email but the same staff name (up to case)
and dealership as an existing user creates a duplicate, violating the
claimed case-insensitive staff-name uniqueness. -/
theorem staff_name_uniqueness_counterexample :
    staffUnique dupNameDB.users ∧
    (∃ db' u, register dupNameDB dupUserCreate "u3" 0 = .ok (db', u)) ∧
    ¬ staffUnique (runUserDB dupNameDB (register dupNameDB dupUserCreate "u3" 0)).users := by
  refine ⟨by decide, ⟨_, _, rfl⟩, by decide⟩

/-- C8 (amended): `create_user` rejects any creation whose `(dealership_id,
name)` matches an existing user of the dealership case-insensitively, so a
successful `create_user` preserves case-insensitive staff-name uniqueness;
`register` and `accept_invite` check only the email and do not preserve it. -/
theorem create_user_preserves_staff_uniqueness (db : DB) (data : UserCreate)
    (user : User) (new_id : String) (now : Int) (db' : DB) (u : User)
    (h : create_user db data user new_id now = .ok (db', u))
    (huniq : staffUnique db.users) : staffUnique db'.users := by
  unfold create_user at h
  split_ifs at h with h1 h2 h3 h4 h5 h6
  simp only [Except.ok.injEq, Prod.mk.injEq] at h
  obtain ⟨hdb, hu⟩ := h
  rw [Option.not_isSome_iff_eq_none] at h5
  have hnone := List.find?_eq_none.mp h5
  subst hdb
  refine List.pairwise_append.mpr ⟨huniq, by simp [staffUnique], ?_⟩
  intro a haa b hb
  simp only [List.mem_singleton] at hb
  subst hb
  intro hcl
  obtain ⟨-, -, hd, hn⟩ := hcl
  exact hnone a haa (by simp_all)

/-- Witness for C8 (amended): a successful concrete `create_user` keeps the
staff names unique. -/
theorem create_user_preserves_staff_uniqueness_witness :
    staffUnique createdStaffDB.users := by
  exact create_user_preserves_staff_uniqueness dupNameDB newStaffCreate adminUser
    "u5" 0 createdStaffDB
    { id := "u5", name := "Carol", role := "service", dealership_id := some "d1",
      email := none, password := none, pin := some (hash_password "4321"),
      admin_pin := none, is_demo := false, created_at := 0 }
    rfl (by decide)

/-- C9: a checkout without the attention flag on an available key changes
only the key's status, `current_checkout` and `notes_history`: its attention
status, images, all PDI fields and every descriptive field are unchanged,
and no repair request is created. -/
theorem checkout_frame_no_attention (db : DB) (key_id : String) (user : User)
    (data : KeyCheckoutRequest) (now : Int) (rid hid : String) (key : Key)
    (hfind : db.keys.find? (fun k => k.id == key_id) = some key)
    (hs : ¬ key.status = "checked_out") (hn : data.needs_attention = false) :
    ∃ db' k', checkout_key db key_id user data now rid hid = .ok (db', k') ∧
      k'.attention_status = key.attention_status ∧
      k'.images = key.images ∧
      k'.pdi_status = key.pdi_status ∧
      k'.pdi_last_updated_at = key.pdi_last_updated_at ∧
      k'.pdi_last_updated_by_user_id = key.pdi_last_updated_by_user_id ∧
      k'.pdi_last_updated_by_user_name = key.pdi_last_updated_by_user_name ∧
      db'.repair_requests = db.repair_requests ∧
      k'.id = key.id ∧ k'.stock_number = key.stock_number ∧
      k'.vehicle_year = key.vehicle_year ∧ k'.vehicle_make = key.vehicle_make ∧
      k'.vehicle_model = key.vehicle_model ∧ k'.vehicle_vin = key.vehicle_vin ∧
      k'.condition = key.condition ∧ k'.dealership_id = key.dealership_id ∧
      k'.is_active = key.is_active ∧ k'.created_at = key.created_at := by
  cases hres : checkout_key db key_id user data now rid hid with
  | error e =>
    have h2 := hres
    simp [checkout_key, hfind, checkoutCore, hs, hn] at h2
  | ok p =>
    obtain ⟨db', k'⟩ := p
    have h2 := hres
    simp [checkout_key, hfind, checkoutCore, hs, hn] at h2
    obtain ⟨hk, hdb⟩ := h2
    refine ⟨db', k', rfl, ?_⟩
    simp [← hk, ← hdb]

/-- Witness for C9: the concrete no-attention checkout of the sample
available key leaves its attention, image and PDI fields and the repair
collection unchanged. -/
theorem checkout_frame_no_attention_witness :
    ∃ db' k', checkout_key sampleDB "k1" noPinUser plainCheckout 120 "r1" "h1"
        = .ok (db', k') ∧
      k'.attention_status = availableKey.attention_status ∧
      k'.images = availableKey.images ∧
      k'.pdi_status = availableKey.pdi_status ∧
      k'.pdi_last_updated_at = availableKey.pdi_last_updated_at ∧
      k'.pdi_last_updated_by_user_id = availableKey.pdi_last_updated_by_user_id ∧
      k'.pdi_last_updated_by_user_name = availableKey.pdi_last_updated_by_user_name ∧
      db'.repair_requests = sampleDB.repair_requests ∧
      k'.id = availableKey.id ∧ k'.stock_number = availableKey.stock_number ∧
      k'.vehicle_year = availableKey.vehicle_year ∧
      k'.vehicle_make = availableKey.vehicle_make ∧
      k'.vehicle_model = availableKey.vehicle_model ∧
      k'.vehicle_vin = availableKey.vehicle_vin ∧
      k'.condition = availableKey.condition ∧
      k'.dealership_id = availableKey.dealership_id ∧
      k'.is_active = availableKey.is_active ∧
      k'.created_at = availableKey.created_at :=
  checkout_frame_no_attention sampleDB "k1" noPinUser plainCheckout 120 "r1" "h1"
    availableKey rfl (by decide) rfl

/-- C10: when the authenticated caller's stored record has neither a `pin`
nor an `admin_pin` hash, `change_user_pin` never verifies `current_pin`: for
any value it succeeds whenever the new PIN is 4-6 digits (storing its hash in
the role-appropriate field) and fails with 400 otherwise; a 401 arises only
when a stored hash exists and `current_pin` fails verification against it. -/
theorem change_pin_no_hash_skips_verification (db : DB)
    (current_pin new_pin : String) (user : User) (db_user : User)
    (hfind : db.users.find? (fun u => u.id == user.id) = some db_user) :
    ((db_user.pin = none ∧ db_user.admin_pin = none) →
      ((isdigit new_pin = true ∧ 4 ≤ new_pin.length ∧ new_pin.length ≤ 6) →
        ∃ db', change_user_pin db current_pin new_pin user = .ok db' ∧
          ∃ u', db'.users.find? (fun u => u.id == user.id) = some u' ∧
            (if user.role = "dealership_admin" then u'.admin_pin else u'.pin)
              = some (hash_password new_pin)) ∧
      ((¬ isdigit new_pin = true ∨ new_pin.length < 4 ∨ 6 < new_pin.length) →
        change_user_pin db current_pin new_pin user
          = .error ⟨400, "PIN must be 4-6 digits"⟩)) ∧
    (∀ e, change_user_pin db current_pin new_pin user = .error e → e.code = 401 →
      ∃ h, db_user.pin.or db_user.admin_pin = some h ∧
        verify_password current_pin h = false) := by
  constructor
  · rintro ⟨hp, ha⟩
    constructor
    · intro hv
      have hfalse : ¬ (isdigit new_pin = false ∨ new_pin.length < 4 ∨ 6 < new_pin.length) := by
        simp [hv.1]
        omega
      cases hres : change_user_pin db current_pin new_pin user with
      | error e =>
        have h2 := hres
        simp [change_user_pin, hfind, hp, ha] at h2
        rw [if_neg hfalse] at h2
        simp at h2
      | ok db' =>
        have h2 := hres
        simp [change_user_pin, hfind, hp, ha] at h2
        rw [if_neg hfalse] at h2
        simp only [Except.ok.injEq] at h2
        refine ⟨db', rfl, ?_⟩
        by_cases hrole : user.role = "dealership_admin"
        · refine ⟨{ db_user with admin_pin := some (hash_password new_pin) },
            ?_, by simp [hrole]⟩
          rw [← h2]
          simp only [hrole, if_true, ite_true]
          have := find?_map_update (fun u => u.id == user.id)
            (fun u => { u with admin_pin := some (hash_password new_pin) })
            (fun a => rfl) db.users db_user hfind
          simpa using this
        · refine ⟨{ db_user with pin := some (hash_password new_pin) },
            ?_, by simp [hrole]⟩
          rw [← h2]
          simp only [hrole, if_false, ite_false]
          have := find?_map_update (fun u => u.id == user.id)
            (fun u => { u with pin := some (hash_password new_pin) })
            (fun a => rfl) db.users db_user hfind
          simpa using this
    · intro hv
      rcases hv with h | h | h <;>
        simp [change_user_pin, hfind, hp, ha, h]
  · intro e herr hcode
    cases ho : db_user.pin.or db_user.admin_pin with
    | none =>
      simp [change_user_pin, hfind, ho] at herr
      split_ifs at herr with hbad
      cases herr
      simp at hcode
    | some h =>
      by_cases hv : verify_password current_pin h = true
      · simp [change_user_pin, hfind, ho, hv] at herr
        split_ifs at herr with hbad
        cases herr
        simp at hcode
      · have hvf : verify_password current_pin h = false := by
          simpa using hv
        exact ⟨h, rfl, hvf⟩

/-- Witness for C10: the sample user has no stored hashes, so an arbitrary
`current_pin` is accepted and the new PIN's hash is stored. -/
theorem change_pin_no_hash_skips_verification_witness :
    ∃ db', change_user_pin sampleDB "wrongpin" "5678" noPinUser = .ok db' ∧
      ∃ u', db'.users.find? (fun u => u.id == noPinUser.id) = some u' ∧
        (if noPinUser.role = "dealership_admin" then u'.admin_pin else u'.pin)
          = some (hash_password "5678") :=
  ((change_pin_no_hash_skips_verification sampleDB "wrongpin" "5678" noPinUser
      noPinUser rfl).1 ⟨rfl, rfl⟩).1 ⟨by decide, by decide, by decide⟩

end KeyFlow
